import Mathlib

/-!
Verification of the policy-impact calculation core of the BACKEND2 repository.

The development shallowly embeds the calculator (`backend/core/engine.py`),
its numeric utilities (`backend/utils/formatters.py`) and the static
reference tables (`backend/data/mock_repository.py`) into Lean.  Python
floats are modelled as exact rationals (every constant in the reference
tables is an exact decimal), Python `round` / `f"{x:.nf}"` rendering is
modelled with half-up rounding on ℚ (the tie cases where Python's
round-half-even would differ never arise in the statements proved here),
and Python dict iteration is modelled as iteration over the fixed key
insertion order of the `policies` dict built in `calculate_impacts`.
-/

set_option maxRecDepth 1000000
set_option maxHeartbeats 1000000

/-! ## Reference data (`backend/data/mock_repository.py`) -/

/-- The eight policy levers, in the insertion order of the `policies`
dict of `PolicyEngine.calculate_impacts`. -/
inductive Lever where
  | evAdoption
  | renewableEnergy
  | carbonTax
  | reforestation
  | publicTransport
  | industrialControls
  | greenBuildings
  | wasteManagement
  deriving DecidableEq, Repr

/-- One record of the `POLICY_COSTS` table. -/
structure PolicyData where
  cost_per_unit : ℚ
  temperature_impact : ℚ
  max_impact : ℚ
  label : String
  description : String
  deriving DecidableEq

/-- The `POLICY_COSTS` table of `mock_repository.py`. -/
def POLICY_COSTS : Lever → PolicyData
  | .evAdoption =>
      { cost_per_unit := 1.2, temperature_impact := -0.0008, max_impact := -0.08,
        label := "EV Adoption Incentives",
        description := "Subsidies, charging infrastructure, and manufacturer incentives" }
  | .renewableEnergy =>
      { cost_per_unit := 2.5, temperature_impact := -0.0012, max_impact := -0.12,
        label := "Renewable Energy Expansion",
        description := "Solar, wind, hydro infrastructure and grid upgrades" }
  | .carbonTax =>
      { cost_per_unit := -0.8, temperature_impact := -0.0015, max_impact := -0.15,
        label := "Carbon Tax Implementation",
        description := "Industrial emissions pricing and regulatory enforcement" }
  | .reforestation =>
      { cost_per_unit := 0.6, temperature_impact := -0.0005, max_impact := -0.05,
        label := "Reforestation Programs",
        description := "Tree planting, forest protection, and carbon sequestration" }
  | .publicTransport =>
      { cost_per_unit := 1.8, temperature_impact := -0.0010, max_impact := -0.10,
        label := "Public Transport Expansion",
        description := "Mass transit infrastructure, bus networks, and rail systems" }
  | .industrialControls =>
      { cost_per_unit := 1.5, temperature_impact := -0.0013, max_impact := -0.13,
        label := "Industrial Emission Controls",
        description := "Factory regulations, emission standards, and monitoring systems" }
  | .greenBuildings =>
      { cost_per_unit := 1.0, temperature_impact := -0.0007, max_impact := -0.07,
        label := "Green Building Standards",
        description := "Energy-efficient construction, retrofits, and building codes" }
  | .wasteManagement =>
      { cost_per_unit := 0.8, temperature_impact := -0.0006, max_impact := -0.06,
        label := "Waste Management & Recycling",
        description := "Recycling programs, waste-to-energy, and landfill reduction" }

/-- A `{"year": ..., "anomaly": ...}` point of the data tables. -/
structure YearPoint where
  year : ℤ
  anomaly : ℚ
  deriving DecidableEq

/-- `HISTORICAL_TEMPERATURE_DATA` (2000-2025). -/
def HISTORICAL_TEMPERATURE_DATA : List YearPoint :=
  [⟨2000, 0.62⟩, ⟨2001, 0.65⟩, ⟨2002, 0.68⟩, ⟨2003, 0.71⟩, ⟨2004, 0.66⟩,
   ⟨2005, 0.76⟩, ⟨2006, 0.73⟩, ⟨2007, 0.77⟩, ⟨2008, 0.64⟩, ⟨2009, 0.74⟩,
   ⟨2010, 0.82⟩, ⟨2011, 0.71⟩, ⟨2012, 0.75⟩, ⟨2013, 0.77⟩, ⟨2014, 0.86⟩,
   ⟨2015, 1.02⟩, ⟨2016, 1.09⟩, ⟨2017, 1.01⟩, ⟨2018, 0.95⟩, ⟨2019, 1.08⟩,
   ⟨2020, 1.15⟩, ⟨2021, 0.98⟩, ⟨2022, 1.04⟩, ⟨2023, 1.35⟩, ⟨2024, 1.38⟩,
   ⟨2025, 1.18⟩]

/-- `BAU_PROJECTION` (2026-2050). -/
def BAU_PROJECTION : List YearPoint :=
  [⟨2026, 1.2⟩, ⟨2027, 1.25⟩, ⟨2028, 1.31⟩, ⟨2029, 1.36⟩, ⟨2030, 1.42⟩,
   ⟨2031, 1.47⟩, ⟨2032, 1.53⟩, ⟨2033, 1.58⟩, ⟨2034, 1.64⟩, ⟨2035, 1.69⟩,
   ⟨2036, 1.75⟩, ⟨2037, 1.80⟩, ⟨2038, 1.86⟩, ⟨2039, 1.91⟩, ⟨2040, 1.97⟩,
   ⟨2041, 2.02⟩, ⟨2042, 2.08⟩, ⟨2043, 2.13⟩, ⟨2044, 2.19⟩, ⟨2045, 2.24⟩,
   ⟨2046, 2.30⟩, ⟨2047, 2.35⟩, ⟨2048, 2.41⟩, ⟨2049, 2.46⟩, ⟨2050, 2.52⟩]

/-- `BASELINE_2026` of `mock_repository.py`. -/
structure Baseline where
  year : ℤ
  temperature_anomaly : ℚ
  national_debt : ℚ
  policies : Lever → ℤ

def BASELINE_2026 : Baseline :=
  { year := 2026, temperature_anomaly := 1.2, national_debt := 0,
    policies := fun _ => 0 }

def BANKRUPTCY_THRESHOLD : ℚ := 1000

def SUSTAINABILITY_THRESHOLD : ℚ := 1.5

/-- `get_complete_trend_data`: historical followed by BAU data. -/
def get_complete_trend_data : List YearPoint :=
  HISTORICAL_TEMPERATURE_DATA ++ BAU_PROJECTION

/-! ## Numeric utilities (`backend/utils/formatters.py`) -/

/-- Rendering of a rational with exactly `decimals` digits after the point,
as Python's `f"{x:.{decimals}f}"` does (the rational is first rounded at
that precision; a sign is emitted from the value itself). -/
def padZeros (s : String) (n : ℕ) : String :=
  if s.length ≥ n then s else String.mk (List.replicate (n - s.length) '0') ++ s

def formatFixed (decimals : ℕ) (q : ℚ) : String :=
  let sign := if q < 0 then "-" else ""
  let scaled : ℤ := round (|q| * 10 ^ decimals)
  let n : ℕ := scaled.toNat
  let ip := n / 10 ^ decimals
  let fp := n % 10 ^ decimals
  if decimals = 0 then sign ++ toString ip
  else sign ++ toString ip ++ "." ++ padZeros (toString fp) decimals

/-- `format_currency` of `formatters.py`. -/
def format_currency (value : ℚ) (decimals : ℕ := 2) : String :=
  let abs_value := |value|
  let formatted :=
    if abs_value ≥ 1000 then "$" ++ formatFixed decimals (abs_value / 1000) ++ "T"
    else if abs_value ≥ 1 then "$" ++ formatFixed decimals abs_value ++ "B"
    else "$" ++ formatFixed decimals (abs_value * 1000) ++ "M"
  if value < 0 then "-" ++ formatted else formatted

/-- `format_percentage` of `formatters.py`. -/
def format_percentage (value : ℚ) (decimals : ℕ := 1) : String :=
  formatFixed decimals value ++ "%"

/-- `format_temperature` of `formatters.py`. -/
def format_temperature (value : ℚ) (decimals : ℕ := 2) : String :=
  (if 0 ≤ value then "+" else "") ++ formatFixed decimals value ++ "°C"

/-- A raw slider input on which `sanitize_slider_value` returns normally:
either a value whose `float(...)` coercion yields a finite number - an
int, a float, a bool or a numeric string - or one whose coercion fails
with `ValueError`/`TypeError` (a non-numeric string, `None`, a list, ...).
A missing key is supplied as `num 0` by the `.get(key, 0)` defaulting in
`calculate_impacts`.  Inputs whose coercion yields a non-finite float are
NOT represented here: on them the real function raises an uncaught
`OverflowError` (see `RawInputFull` and `sanitize_slider_value_full`
below), so the engine model takes its inputs from this non-raising
fragment. -/
inductive RawInput where
  | num (q : ℚ)
  | nonNumeric
  deriving DecidableEq

/-- Python `int(...)` on a float: truncation toward zero. -/
def truncQ (q : ℚ) : ℤ := if 0 ≤ q then ⌊q⌋ else ⌈q⌉

/-- `sanitize_slider_value` of `formatters.py`:
`max(0, min(100, int(float(value))))`, with coercion failures mapped
to 0 by the `except (ValueError, TypeError)` handler. -/
def sanitize_slider_value : RawInput → ℤ
  | .num q => max 0 (min 100 (truncQ q))
  | .nonNumeric => 0

/-- A raw slider input over the full Python float domain, distinguishing
values whose `float(...)` coercion yields a non-finite float: the strings
"inf", "-inf", "Infinity", over-range literals such as "1e999", and the
corresponding float objects coerce successfully to ±infinity, and "nan"
coerces to NaN. -/
inductive RawInputFull where
  | finite (q : ℚ)
  | infinite (positive : Bool)
  | nan
  | nonNumeric
  deriving DecidableEq

/-- `sanitize_slider_value` of `formatters.py` over the full input domain,
with its exception path made explicit: `int()` on ±infinity raises
`OverflowError` and on NaN raises `ValueError`; the
`except (ValueError, TypeError)` handler catches only the latter two
kinds, so NaN and non-numeric inputs are coerced to 0 while ±infinity
escapes as an uncaught exception. -/
def sanitize_slider_value_full : RawInputFull → Except String ℤ
  | .finite q => .ok (max 0 (min 100 (truncQ q)))
  | .infinite _ => .error "OverflowError"
  | .nan => .ok 0
  | .nonNumeric => .ok 0

/-- `round_to_precision` of `formatters.py` (Python `round(value, precision)`;
modelled half-up, see the file comment). -/
def round_to_precision (value : ℚ) (precision : ℕ := 2) : ℚ :=
  (round (value * 10 ^ precision) : ℤ) / 10 ^ precision

/-- `calculate_efficiency_index` of `formatters.py`. -/
def calculate_efficiency_index (temperature_impact fiscal_cost : ℚ) : ℚ :=
  if fiscal_cost ≤ 0 then |temperature_impact| * 1000
  else round_to_precision (|temperature_impact| / fiscal_cost * 1000) 2

/-! ## The engine (`backend/core/engine.py`) -/

/-- The key insertion order of the `policies` dict in
`PolicyEngine.calculate_impacts` (lines 60-69), which is the iteration
order of the calculation loop. -/
def leverOrder : List Lever :=
  [.evAdoption, .renewableEnergy, .carbonTax, .reforestation,
   .publicTransport, .industrialControls, .greenBuildings, .wasteManagement]

structure BreakdownEntry where
  policy : String
  level : ℤ
  cost : ℚ
  cost_formatted : String
  temperature_impact : ℚ
  temperature_formatted : String
  description : String
  deriving DecidableEq

structure TrendPoint where
  year : ℤ
  anomaly : ℚ
  anomaly_formatted : String
  bau_anomaly : ℚ
  mitigation_applied : ℚ
  deriving DecidableEq

structure TreemapEntry where
  name : String
  value : ℚ
  formatted : String
  percentage : ℚ
  deriving DecidableEq

structure EfficiencyEntry where
  policy : String
  efficiency : ℚ
  interpretation : String
  deriving DecidableEq

structure CalculationResult where
  total_cost : ℚ
  total_cost_formatted : String
  temperature_mitigation : ℚ
  temperature_mitigation_formatted : String
  national_debt : ℚ
  national_debt_formatted : String
  bankruptcy_flag : Bool
  policy_breakdown : List BreakdownEntry
  trend_line : List TrendPoint
  fiscal_treemap : List TreemapEntry
  efficiency_index : List EfficiencyEntry
  policies_applied : Lever → ℤ
  warning_message : Option String

/-- Input sanitization step of `calculate_impacts` (lines 60-69). -/
def sanitizePolicies (inputs : Lever → RawInput) : Lever → ℤ :=
  fun k => sanitize_slider_value (inputs k)

/-- The levers the calculation loop does not skip
(`if level == 0: continue`, line 79). -/
def activeLevers (pol : Lever → ℤ) : List Lever :=
  leverOrder.filter (fun k => pol k ≠ 0)

/-- `cost = policy_data["cost_per_unit"] * level` (line 85). -/
def leverCost (k : Lever) (level : ℤ) : ℚ :=
  (POLICY_COSTS k).cost_per_unit * level

/-- Lines 86-89: linear temperature impact, then
`temp_impact = max(temp_impact, policy_data["max_impact"])`. -/
def leverTempImpact (k : Lever) (level : ℤ) : ℚ :=
  max ((POLICY_COSTS k).temperature_impact * level) (POLICY_COSTS k).max_impact

/-- Accumulated `total_cost` (line 91). -/
def total_cost_raw (pol : Lever → ℤ) : ℚ :=
  ((activeLevers pol).map (fun k => leverCost k (pol k))).sum

/-- Accumulated `total_temp_mitigation` (line 92). -/
def total_temp_mitigation_raw (pol : Lever → ℤ) : ℚ :=
  ((activeLevers pol).map (fun k => leverTempImpact k (pol k))).sum

/-- `bankruptcy_flag = national_debt > BANKRUPTCY_THRESHOLD` (line 135). -/
def bankruptcy_check (national_debt : ℚ) : Bool :=
  national_debt > BANKRUPTCY_THRESHOLD

/-- `PolicyEngine._interpret_efficiency`. -/
def interpret_efficiency (efficiency_score : ℚ) : String :=
  if efficiency_score ≥ 1.0 then "Excellent"
  else if efficiency_score ≥ 0.5 then "Good"
  else if efficiency_score ≥ 0.2 then "Moderate"
  else "Poor"

/-- `PolicyEngine._generate_trend_line`. -/
def generate_trend_line (total_mitigation : ℚ) : List TrendPoint :=
  BAU_PROJECTION.map fun bau_point =>
    let years_from_start : ℚ := (bau_point.year : ℚ) - 2026
    let mitigation_factor : ℚ := min 1 (years_from_start / 9)
    let adjusted_temp := bau_point.anomaly + total_mitigation * mitigation_factor
    { year := bau_point.year,
      anomaly := round_to_precision adjusted_temp 3,
      anomaly_formatted := format_temperature adjusted_temp 2,
      bau_anomaly := round_to_precision bau_point.anomaly 3,
      mitigation_applied := round_to_precision (total_mitigation * mitigation_factor) 3 }

/-- Breakdown entries appended by the loop (lines 95-103). -/
def policyBreakdown (pol : Lever → ℤ) : List BreakdownEntry :=
  (activeLevers pol).map fun k =>
    { policy := (POLICY_COSTS k).label,
      level := pol k,
      cost := round_to_precision (leverCost k (pol k)) 2,
      cost_formatted := format_currency (leverCost k (pol k)),
      temperature_impact := round_to_precision (leverTempImpact k (pol k)) 3,
      temperature_formatted := format_temperature (leverTempImpact k (pol k)) 3,
      description := (POLICY_COSTS k).description }

/-- Treemap entries appended by the loop (lines 105-112): only levers with
`cost > 0`, with `percentage` initialized to 0. -/
def treemapBase (pol : Lever → ℤ) : List TreemapEntry :=
  ((activeLevers pol).filter (fun k => 0 < leverCost k (pol k))).map fun k =>
    { name := (POLICY_COSTS k).label,
      value := round_to_precision (leverCost k (pol k)) 2,
      formatted := format_currency (leverCost k (pol k)),
      percentage := 0 }

/-- The percentage pass over the treemap (lines 122-128): when
`total_positive_cost > 0`, each entry's percentage becomes
`round((value / total) * 100, 1)`. -/
def fiscalTreemap (pol : Lever → ℤ) : List TreemapEntry :=
  if 0 < ((treemapBase pol).map (fun e => e.value)).sum then
    (treemapBase pol).map fun e =>
      { e with
        percentage := round_to_precision
          (e.value / ((treemapBase pol).map (fun e2 => e2.value)).sum * 100) 1 }
  else treemapBase pol

/-- Efficiency entries appended by the loop (lines 114-120). -/
def efficiencyIndex (pol : Lever → ℤ) : List EfficiencyEntry :=
  (activeLevers pol).map fun k =>
    { policy := (POLICY_COSTS k).label,
      efficiency := calculate_efficiency_index (leverTempImpact k (pol k)) (leverCost k (pol k)),
      interpretation :=
        interpret_efficiency
          (calculate_efficiency_index (leverTempImpact k (pol k)) (leverCost k (pol k))) }

/-- `PolicyEngine.calculate_impacts`. -/
def calculate_impacts (policy_inputs : Lever → RawInput) : CalculationResult :=
  let policies := sanitizePolicies policy_inputs
  let total_cost := total_cost_raw policies
  let total_temp_mitigation := total_temp_mitigation_raw policies
  let national_debt := total_cost
  let bankruptcy_flag := bankruptcy_check national_debt
  { total_cost := round_to_precision total_cost 2,
    total_cost_formatted := format_currency total_cost,
    temperature_mitigation := round_to_precision total_temp_mitigation 3,
    temperature_mitigation_formatted := format_temperature total_temp_mitigation 3,
    national_debt := round_to_precision national_debt 2,
    national_debt_formatted := format_currency national_debt,
    bankruptcy_flag := bankruptcy_flag,
    policy_breakdown := policyBreakdown policies,
    trend_line := generate_trend_line total_temp_mitigation,
    fiscal_treemap := fiscalTreemap policies,
    efficiency_index := efficiencyIndex policies,
    policies_applied := policies,
    warning_message := if bankruptcy_flag then some "ECONOMIC COLLAPSE IMMINENT" else none }

/-- One formatted point of `get_baseline_state`'s output lists. -/
structure FormattedYearPoint where
  year : ℤ
  anomaly : ℚ
  anomaly_formatted : String
  deriving DecidableEq

structure BaselineState where
  year : ℤ
  temperature_anomaly : ℚ
  temperature_formatted : String
  national_debt : ℚ
  national_debt_formatted : String
  policies : Lever → ℤ
  bau_projection : List FormattedYearPoint
  historical_data : List FormattedYearPoint

/-- `PolicyEngine.get_baseline_state`. -/
def get_baseline_state : BaselineState :=
  { year := BASELINE_2026.year,
    temperature_anomaly := BASELINE_2026.temperature_anomaly,
    temperature_formatted := format_temperature BASELINE_2026.temperature_anomaly 2,
    national_debt := BASELINE_2026.national_debt,
    national_debt_formatted := format_currency BASELINE_2026.national_debt,
    policies := BASELINE_2026.policies,
    bau_projection :=
      BAU_PROJECTION.map fun p => ⟨p.year, p.anomaly, format_temperature p.anomaly 2⟩,
    historical_data :=
      (get_complete_trend_data.filter (fun p => p.year < 2026)).map fun p =>
        ⟨p.year, p.anomaly, format_temperature p.anomaly 2⟩ }

/-! ## Concrete inputs used by the claim theorems -/

/-- `renewable_energy=100`, all other levers 0. -/
def inputRenewable100 : Lever → RawInput :=
  fun k => if k = Lever.renewableEnergy then RawInput.num 100 else RawInput.num 0

/-- The all-zero policy input. -/
def inputAllZero : Lever → RawInput := fun _ => RawInput.num 0

/-- `carbon_tax=50`, all other levers 0. -/
def inputCarbonTax50 : Lever → RawInput :=
  fun k => if k = Lever.carbonTax then RawInput.num 50 else RawInput.num 0

/-! ## Helper lemmas -/

lemma sanitize_nonneg (r : RawInput) : 0 ≤ sanitize_slider_value r := by
  cases r with
  | num q => exact le_max_left 0 _
  | nonNumeric => exact le_refl 0

lemma sanitize_le_hundred (r : RawInput) : sanitize_slider_value r ≤ 100 := by
  cases r with
  | num q =>
      simp only [sanitize_slider_value]
      omega
  | nonNumeric => norm_num [sanitize_slider_value]

lemma abs_max_le_of_nonpos {a b : ℚ} (ha : a ≤ 0) (hb : b ≤ 0) : |max a b| ≤ |b| := by
  rw [abs_of_nonpos (max_le ha hb), abs_of_nonpos hb]
  exact neg_le_neg (le_max_right a b)


/-! ## Claim theorems: sanitization, saturation, thresholds, determinism -/

/-- C4: the claim fails on the code: an input whose `float(...)` coercion
yields ±infinity (such as the string "inf" or "1e999") makes `int()`
raise `OverflowError`, which the `except (ValueError, TypeError)` handler
does not catch, so sanitization raises instead of returning an integer in
`[0,100]`.  On every other input the claimed behaviour holds: finite
numerics are truncated toward zero and clamped (agreeing with the
engine's `sanitize_slider_value`), NaN and non-numeric inputs yield 0,
and every normal return lies in `[0,100]`. -/
theorem C4_sanitization_overflow :
    sanitize_slider_value_full (RawInputFull.infinite true) =
      Except.error "OverflowError" ∧
    sanitize_slider_value_full (RawInputFull.infinite false) =
      Except.error "OverflowError" ∧
    (∀ q : ℚ, sanitize_slider_value_full (RawInputFull.finite q) =
        Except.ok (max 0 (min 100 (truncQ q))) ∧
      sanitize_slider_value_full (RawInputFull.finite q) =
        Except.ok (sanitize_slider_value (RawInput.num q))) ∧
    sanitize_slider_value_full RawInputFull.nan = Except.ok 0 ∧
    sanitize_slider_value_full RawInputFull.nonNumeric = Except.ok 0 ∧
    (∀ r : RawInputFull,
      sanitize_slider_value_full r = Except.error "OverflowError" ∨
      ∃ z : ℤ, sanitize_slider_value_full r = Except.ok z ∧ 0 ≤ z ∧ z ≤ 100) := by
  refine ⟨rfl, rfl, fun q => ⟨rfl, rfl⟩, rfl, rfl, ?_⟩
  intro r
  cases r with
  | finite q =>
      refine Or.inr ⟨max 0 (min 100 (truncQ q)), rfl, le_max_left 0 _, ?_⟩
      exact sanitize_le_hundred (RawInput.num q)
  | infinite b => exact Or.inl rfl
  | nan => exact Or.inr ⟨0, rfl, le_refl 0, by norm_num⟩
  | nonNumeric => exact Or.inr ⟨0, rfl, le_refl 0, by norm_num⟩

/-- C3: for every lever and every sanitized level in `[0,100]`, the
per-lever temperature contribution is `max(temperature_impact * level,
max_impact)`, and its magnitude never exceeds the magnitude of the lever's
`max_impact` (in particular at level 100). -/
theorem C3_saturation (k : Lever) (level : ℤ) (h0 : 0 ≤ level) (h100 : level ≤ 100) :
    leverTempImpact k level =
      max ((POLICY_COSTS k).temperature_impact * level) (POLICY_COSTS k).max_impact ∧
    |leverTempImpact k level| ≤ |(POLICY_COSTS k).max_impact| := by
  refine ⟨rfl, abs_max_le_of_nonpos ?_ ?_⟩
  · have hl : (0 : ℚ) ≤ (level : ℚ) := by exact_mod_cast h0
    have ht : (POLICY_COSTS k).temperature_impact ≤ 0 := by
      cases k <;> norm_num [POLICY_COSTS]
    exact mul_nonpos_of_nonpos_of_nonneg ht hl
  · cases k <;> norm_num [POLICY_COSTS]

/-- Witness for C3 at the renewable-energy lever driven to level 100. -/
theorem C3_saturation_witness :
    leverTempImpact Lever.renewableEnergy 100 =
      max ((POLICY_COSTS Lever.renewableEnergy).temperature_impact * 100)
        (POLICY_COSTS Lever.renewableEnergy).max_impact ∧
    |leverTempImpact Lever.renewableEnergy 100| ≤
      |(POLICY_COSTS Lever.renewableEnergy).max_impact| :=
  C3_saturation Lever.renewableEnergy 100 (by decide) (by decide)

/-- C5: `calculate_impacts` sets `national_debt` equal to `total_cost`, sets
`bankruptcy_flag` exactly when the accumulated debt strictly exceeds the
fixed threshold 1000 (the threshold comparison maps 1000 to `false` and
1000.01 to `true`), and emits the fixed warning literal exactly when the
flag is set, else `none`. -/
theorem C5_bankruptcy_threshold (policy_inputs : Lever → RawInput) :
    (calculate_impacts policy_inputs).national_debt =
      (calculate_impacts policy_inputs).total_cost ∧
    ((calculate_impacts policy_inputs).bankruptcy_flag = true ↔
      total_cost_raw (sanitizePolicies policy_inputs) > BANKRUPTCY_THRESHOLD) ∧
    ((calculate_impacts policy_inputs).warning_message =
      if (calculate_impacts policy_inputs).bankruptcy_flag then
        some "ECONOMIC COLLAPSE IMMINENT" else none) ∧
    bankruptcy_check 1000 = false ∧ bankruptcy_check 1000.01 = true := by
  refine ⟨rfl, ?_, rfl, ?_, ?_⟩
  · show bankruptcy_check (total_cost_raw (sanitizePolicies policy_inputs)) = true ↔ _
    simp [bankruptcy_check]
  · with_unfolding_all decide
  · with_unfolding_all decide

/-- C8: the calculator is deterministic - two invocations on identical
policy inputs (over the same immutable reference tables) return identical
results; the embedding is a pure function with no other state. -/
theorem C8_deterministic (p q : Lever → RawInput) (h : p = q) :
    calculate_impacts p = calculate_impacts q := by rw [h]

/-- Witness for C8 at the all-zero input. -/
theorem C8_deterministic_witness :
    calculate_impacts inputAllZero = calculate_impacts inputAllZero :=
  C8_deterministic inputAllZero inputAllZero rfl

/-! ## Claim theorems: concrete example inputs -/

/-- C1: with `renewable_energy=100` and all other levers 0, the result has
total cost 250 ("$250.00B"), temperature mitigation -0.120 ("-0.120°C",
the linear impact -0.0012*100 equalling `max_impact` exactly), a one-entry
treemap at percentage 100, mitigation -0.120 at trend year 2035 and
`round(-0.12*4/9, 3) = -0.053` at trend year 2030. -/
theorem C1_renewable_energy_example :
    (calculate_impacts inputRenewable100).total_cost = 250 ∧
    (calculate_impacts inputRenewable100).total_cost_formatted = "$250.00B" ∧
    (calculate_impacts inputRenewable100).temperature_mitigation = -0.120 ∧
    (calculate_impacts inputRenewable100).temperature_mitigation_formatted = "-0.120°C" ∧
    (-0.0012 : ℚ) * 100 = (POLICY_COSTS Lever.renewableEnergy).max_impact ∧
    (calculate_impacts inputRenewable100).fiscal_treemap.map (fun e => e.percentage) = [100] ∧
    ((calculate_impacts inputRenewable100).trend_line.filter (fun p => p.year = 2035)).map
      (fun p => p.mitigation_applied) = [-0.120] ∧
    ((calculate_impacts inputRenewable100).trend_line.filter (fun p => p.year = 2030)).map
      (fun p => p.mitigation_applied) = [round_to_precision (-0.12 * (4 / 9)) 3] ∧
    round_to_precision (-0.12 * (4 / 9)) 3 = -0.053 := by
  with_unfolding_all decide

/-- C2: the all-zero input produces zero cost, zero mitigation, empty
breakdown, treemap and efficiency lists, and a trend line that coincides
with the BAU projection with zero mitigation applied at every year. -/
theorem C2_all_zero_input :
    (calculate_impacts inputAllZero).total_cost = 0 ∧
    (calculate_impacts inputAllZero).temperature_mitigation = 0 ∧
    (calculate_impacts inputAllZero).policy_breakdown = [] ∧
    (calculate_impacts inputAllZero).fiscal_treemap = [] ∧
    (calculate_impacts inputAllZero).efficiency_index = [] ∧
    (∀ p ∈ (calculate_impacts inputAllZero).trend_line,
      p.anomaly = p.bau_anomaly ∧ p.mitigation_applied = 0) := by
  with_unfolding_all decide

/-- C6 counterexample: with `carbon_tax=50` and all other levers 0, the
efficiency tier produced by the code is not "Good" (the claim's tier): the
score 75.0 falls in the `>= 1.0` branch of `_interpret_efficiency`. -/
theorem C6_carbon_tax_counterexample :
    (calculate_impacts inputCarbonTax50).efficiency_index.map (fun e => e.interpretation) ≠
      ["Good"] := by
  with_unfolding_all decide

/-- C6 (amended): with `carbon_tax=50` and all other levers 0, the lever's
cost is -40, formatted "-$40.00B", the treemap is empty (the cost is not
positive), and the efficiency entry comes from the `cost <= 0` branch with
score `|-0.0015*50| * 1000 = 75.0` and tier interpretation "Excellent". -/
theorem C6_carbon_tax_example :
    (calculate_impacts inputCarbonTax50).policy_breakdown.map
      (fun e => (e.cost, e.cost_formatted)) = [(-40, "-$40.00B")] ∧
    (calculate_impacts inputCarbonTax50).fiscal_treemap = [] ∧
    (calculate_impacts inputCarbonTax50).efficiency_index.map
      (fun e => (e.efficiency, e.interpretation)) = [(75, "Excellent")] ∧
    |(-0.0015 : ℚ) * 50| * 1000 = 75 := by
  with_unfolding_all decide

/-- C9: `get_baseline_state` takes no input and returns the fixed 2026
baseline (year 2026, anomaly 1.2 formatted "+1.20°C", debt 0, all-zero
policy levels), the full BAU projection with formatted anomalies, and a
historical list holding exactly the data points with year < 2026, also
formatted. -/
theorem C9_baseline_state :
    get_baseline_state.year = 2026 ∧
    get_baseline_state.temperature_anomaly = 1.2 ∧
    get_baseline_state.temperature_formatted = "+1.20°C" ∧
    get_baseline_state.national_debt = 0 ∧
    (∀ k, get_baseline_state.policies k = 0) ∧
    get_baseline_state.bau_projection =
      BAU_PROJECTION.map (fun p => ⟨p.year, p.anomaly, format_temperature p.anomaly 2⟩) ∧
    get_baseline_state.bau_projection.length = 25 ∧
    get_baseline_state.historical_data =
      HISTORICAL_TEMPERATURE_DATA.map
        (fun p => ⟨p.year, p.anomaly, format_temperature p.anomaly 2⟩) ∧
    (∀ p ∈ get_baseline_state.historical_data, p.year < 2026) := by
  refine ⟨rfl, rfl, ?_, rfl, fun k => rfl, rfl, ?_, ?_, ?_⟩
  · with_unfolding_all decide
  · with_unfolding_all decide
  · with_unfolding_all decide
  · with_unfolding_all decide

/-! ## C10: bankruptcy is unreachable with the shipped tables -/

/-- Largest cost a lever can contribute over levels in `[0,100]`:
`cost_per_unit * 100` for positive-cost levers, 0 for revenue levers. -/
def leverCostCap (k : Lever) : ℚ := max ((POLICY_COSTS k).cost_per_unit * 100) 0

lemma leverCostCap_nonneg (k : Lever) : 0 ≤ leverCostCap k := le_max_right _ _

lemma leverCost_le_cap (k : Lever) (level : ℤ) (h0 : 0 ≤ level) (h100 : level ≤ 100) :
    leverCost k level ≤ leverCostCap k := by
  have hl0 : (0 : ℚ) ≤ (level : ℚ) := by exact_mod_cast h0
  have hl100 : (level : ℚ) ≤ 100 := by exact_mod_cast h100
  rcases le_or_lt 0 (POLICY_COSTS k).cost_per_unit with hu | hu
  · exact le_trans (by simpa [leverCost] using mul_le_mul_of_nonneg_left hl100 hu)
      (le_max_left _ _)
  · exact le_trans (mul_nonpos_of_nonpos_of_nonneg (le_of_lt hu) hl0) (le_max_right _ _)

lemma round_to_precision_mono {x y : ℚ} (p : ℕ) (h : x ≤ y) :
    round_to_precision x p ≤ round_to_precision y p := by
  unfold round_to_precision
  have hmul : x * 10 ^ p ≤ y * 10 ^ p :=
    mul_le_mul_of_nonneg_right h (by positivity)
  have hr : round (x * 10 ^ p) ≤ round (y * 10 ^ p) := by
    rw [round_eq, round_eq]
    exact Int.floor_le_floor (add_le_add_right hmul _)
  have hc : ((round (x * 10 ^ p) : ℤ) : ℚ) ≤ ((round (y * 10 ^ p) : ℤ) : ℚ) := by
    exact_mod_cast hr
  gcongr

lemma total_cost_raw_le_940 (pol : Lever → ℤ) (h0 : ∀ k, 0 ≤ pol k)
    (h100 : ∀ k, pol k ≤ 100) : total_cost_raw pol ≤ 940 := by
  have h1 : ((activeLevers pol).map (fun k => leverCost k (pol k))).sum ≤
      ((activeLevers pol).map leverCostCap).sum :=
    List.sum_le_sum (fun k _ => leverCost_le_cap k (pol k) (h0 k) (h100 k))
  have h2 : ((activeLevers pol).map leverCostCap).sum ≤ (leverOrder.map leverCostCap).sum := by
    refine List.Sublist.sum_le_sum ((List.filter_sublist _).map _) ?_
    intro a ha
    obtain ⟨k, _, rfl⟩ := List.mem_map.1 ha
    exact leverCostCap_nonneg k
  have h3 : (leverOrder.map leverCostCap).sum = 940 := by with_unfolding_all decide
  calc total_cost_raw pol ≤ ((activeLevers pol).map leverCostCap).sum := h1
    _ ≤ (leverOrder.map leverCostCap).sum := h2
    _ = 940 := h3

/-- C10: with the shipped reference tables, bankruptcy is unreachable: for
every policy input, the total cost is at most 940 (the sum over the seven
positive-cost levers of `cost_per_unit * 100`; the carbon tax only lowers
the total), which is below the threshold 1000, so `bankruptcy_flag` is
always `false` and `warning_message` is always `none`. -/
theorem C10_bankruptcy_unreachable (policy_inputs : Lever → RawInput) :
    (calculate_impacts policy_inputs).total_cost ≤ 940 ∧
    (calculate_impacts policy_inputs).bankruptcy_flag = false ∧
    (calculate_impacts policy_inputs).warning_message = none ∧
    (leverOrder.map leverCostCap).sum = 940 := by
  have hraw : total_cost_raw (sanitizePolicies policy_inputs) ≤ 940 :=
    total_cost_raw_le_940 _ (fun k => sanitize_nonneg _) (fun k => sanitize_le_hundred _)
  have hflag : (calculate_impacts policy_inputs).bankruptcy_flag = false := by
    show bankruptcy_check (total_cost_raw (sanitizePolicies policy_inputs)) = false
    simp only [bankruptcy_check, decide_eq_false_iff_not, not_lt, BANKRUPTCY_THRESHOLD]
    linarith
  refine ⟨?_, hflag, ?_, by with_unfolding_all decide⟩
  · show round_to_precision (total_cost_raw (sanitizePolicies policy_inputs)) 2 ≤ 940
    calc round_to_precision (total_cost_raw (sanitizePolicies policy_inputs)) 2
        ≤ round_to_precision 940 2 := round_to_precision_mono 2 hraw
      _ = 940 := by with_unfolding_all decide
  · show (if (calculate_impacts policy_inputs).bankruptcy_flag then
        some "ECONOMIC COLLAPSE IMMINENT" else none) = none
    rw [hflag]
    simp

/-! ## C7: the treemap and its percentage sum -/

lemma abs_round_to_precision_sub (p : ℕ) (x : ℚ) :
    |round_to_precision x p - x| ≤ 1 / (2 * 10 ^ p) := by
  unfold round_to_precision
  have h10 : (0 : ℚ) < 10 ^ p := by positivity
  have key : (round (x * 10 ^ p) : ℚ) / 10 ^ p - x =
      ((round (x * 10 ^ p) : ℚ) - x * 10 ^ p) / 10 ^ p := by
    field_simp
    ring
  rw [key, abs_div, abs_of_pos h10, abs_sub_comm]
  have h2 := abs_sub_round (x * 10 ^ p)
  calc |x * 10 ^ p - (round (x * 10 ^ p) : ℚ)| / 10 ^ p
      ≤ (1 / 2) / 10 ^ p := by gcongr
    _ = 1 / (2 * 10 ^ p) := by ring

lemma sum_map_round_err (l : List ℚ) :
    |(l.map (fun x => round_to_precision x 1)).sum - l.sum| ≤ l.length * (1 / 20) := by
  induction l with
  | nil => simp
  | cons a t ih =>
      simp only [List.map_cons, List.sum_cons, List.length_cons]
      have ha : |round_to_precision a 1 - a| ≤ 1 / 20 := by
        have h := abs_round_to_precision_sub 1 a
        norm_num at h
        exact h
      calc |round_to_precision a 1 + (t.map (fun x => round_to_precision x 1)).sum - (a + t.sum)|
          = |(round_to_precision a 1 - a) +
              ((t.map (fun x => round_to_precision x 1)).sum - t.sum)| := by ring_nf
        _ ≤ |round_to_precision a 1 - a| +
              |(t.map (fun x => round_to_precision x 1)).sum - t.sum| := abs_add _ _
        _ ≤ 1 / 20 + t.length * (1 / 20) := add_le_add ha ih
        _ = (t.length + 1) * (1 / 20) := by ring
        _ = ((t.length + 1 : ℕ) : ℚ) * (1 / 20) := by push_cast; ring

lemma sum_map_mul_const (l : List ℚ) (c : ℚ) :
    (l.map (fun v => v * c)).sum = l.sum * c := by
  induction l with
  | nil => simp
  | cons a t ih => simp [ih, add_mul]

lemma round_to_precision_int_mul (m level : ℤ) (d : ℚ) (hd : d * 100 = (m : ℚ)) :
    round_to_precision (d * level) 2 = d * level := by
  unfold round_to_precision
  have h1 : d * (level : ℚ) * 10 ^ 2 = ((m * level : ℤ) : ℚ) := by
    push_cast
    calc d * (level : ℚ) * 10 ^ 2 = d * 100 * level := by ring
      _ = (m : ℚ) * level := by rw [hd]
  rw [h1, round_intCast]
  have h2 : (10 : ℚ) ^ 2 ≠ 0 := by norm_num
  field_simp
  push_cast at h1 ⊢
  linarith

lemma round_two_leverCost (k : Lever) (level : ℤ) :
    round_to_precision (leverCost k level) 2 = leverCost k level := by
  cases k with
  | evAdoption => exact round_to_precision_int_mul 120 level _ (by norm_num [POLICY_COSTS])
  | renewableEnergy => exact round_to_precision_int_mul 250 level _ (by norm_num [POLICY_COSTS])
  | carbonTax => exact round_to_precision_int_mul (-80) level _ (by norm_num [POLICY_COSTS])
  | reforestation => exact round_to_precision_int_mul 60 level _ (by norm_num [POLICY_COSTS])
  | publicTransport => exact round_to_precision_int_mul 180 level _ (by norm_num [POLICY_COSTS])
  | industrialControls => exact round_to_precision_int_mul 150 level _ (by norm_num [POLICY_COSTS])
  | greenBuildings => exact round_to_precision_int_mul 100 level _ (by norm_num [POLICY_COSTS])
  | wasteManagement => exact round_to_precision_int_mul 80 level _ (by norm_num [POLICY_COSTS])

lemma leverCost_carbonTax_nonpos (level : ℤ) (h : 0 ≤ level) :
    leverCost Lever.carbonTax level ≤ 0 := by
  have hl : (0 : ℚ) ≤ (level : ℚ) := by exact_mod_cast h
  have hu : (POLICY_COSTS Lever.carbonTax).cost_per_unit ≤ 0 := by norm_num [POLICY_COSTS]
  exact mul_nonpos_of_nonpos_of_nonneg hu hl

lemma treemapBase_value_pos (pol : Lever → ℤ) :
    ∀ e ∈ treemapBase pol, 0 < e.value := by
  intro e he
  simp only [treemapBase, List.mem_map] at he
  obtain ⟨k, hk, rfl⟩ := he
  have hkc : 0 < leverCost k (pol k) := by
    have h2 := (List.mem_filter.1 hk).2
    simpa using h2
  show 0 < round_to_precision (leverCost k (pol k)) 2
  rw [round_two_leverCost]
  exact hkc

lemma length_filter_leverOrder_le_seven {p : Lever → Bool}
    (hct : p Lever.carbonTax = false) : (leverOrder.filter p).length ≤ 7 := by
  have hsplit : leverOrder = [Lever.evAdoption, Lever.renewableEnergy] ++
      Lever.carbonTax :: [Lever.reforestation, Lever.publicTransport,
        Lever.industrialControls, Lever.greenBuildings, Lever.wasteManagement] := rfl
  have hmid : List.filter p (Lever.carbonTax :: [Lever.reforestation,
      Lever.publicTransport, Lever.industrialControls, Lever.greenBuildings,
      Lever.wasteManagement]) = List.filter p [Lever.reforestation,
      Lever.publicTransport, Lever.industrialControls, Lever.greenBuildings,
      Lever.wasteManagement] := List.filter_cons_of_neg (by simp [hct])
  rw [hsplit, List.filter_append, hmid, List.length_append]
  have h1 := List.length_filter_le p [Lever.evAdoption, Lever.renewableEnergy]
  have h2 := List.length_filter_le p [Lever.reforestation, Lever.publicTransport,
    Lever.industrialControls, Lever.greenBuildings, Lever.wasteManagement]
  simp only [List.length_cons, List.length_nil] at h1 h2
  omega

lemma treemapBase_length_le (pol : Lever → ℤ) (h0 : ∀ k, 0 ≤ pol k) :
    (treemapBase pol).length ≤ 7 := by
  unfold treemapBase activeLevers
  rw [List.length_map, List.filter_filter]
  apply length_filter_leverOrder_le_seven
  have hc : ¬ (0 < leverCost Lever.carbonTax (pol Lever.carbonTax)) :=
    not_lt.2 (leverCost_carbonTax_nonpos _ (h0 _))
  simp [hc]

lemma fiscalTreemap_sum_le (pol : Lever → ℤ) (h0 : ∀ k, 0 ≤ pol k)
    (hne : fiscalTreemap pol ≠ []) :
    |((fiscalTreemap pol).map (fun e => e.percentage)).sum - 100| ≤ 7 / 20 := by
  have hbase : treemapBase pol ≠ [] := by
    intro h
    apply hne
    simp [fiscalTreemap, h]
  have hvalpos := treemapBase_value_pos pol
  set T := ((treemapBase pol).map (fun e => e.value)).sum with hTdef
  have hTpos : 0 < T := by
    rw [hTdef]
    apply List.sum_pos
    · intro x hx
      obtain ⟨e, he, rfl⟩ := List.mem_map.1 hx
      exact hvalpos e he
    · simpa using hbase
  have htm : fiscalTreemap pol = (treemapBase pol).map
      (fun e => { e with percentage := round_to_precision (e.value / T * 100) 1 }) := by
    unfold fiscalTreemap
    rw [← hTdef]
    rw [if_pos hTpos]
  rw [htm, List.map_map]
  have hcomp : ((fun e : TreemapEntry => e.percentage) ∘
      (fun e : TreemapEntry => { e with percentage := round_to_precision (e.value / T * 100) 1 })) =
      fun e : TreemapEntry => round_to_precision (e.value / T * 100) 1 := rfl
  rw [hcomp]
  have hxs : (treemapBase pol).map (fun e => round_to_precision (e.value / T * 100) 1) =
      (((treemapBase pol).map (fun e => e.value)).map (fun v => v / T * 100)).map
        (fun x => round_to_precision x 1) := by
    rw [List.map_map, List.map_map]
    rfl
  rw [hxs]
  have hsum : (((treemapBase pol).map (fun e => e.value)).map (fun v => v / T * 100)).sum = 100 := by
    have hfun : (fun v : ℚ => v / T * 100) = fun v : ℚ => v * (100 / T) := by
      funext v
      ring
    rw [hfun, sum_map_mul_const, ← hTdef, mul_comm, div_mul_cancel₀ _ hTpos.ne']
  have herr := sum_map_round_err (((treemapBase pol).map (fun e => e.value)).map
    (fun v => v / T * 100))
  rw [hsum] at herr
  have hlen : (((treemapBase pol).map (fun e => e.value)).map (fun v => v / T * 100)).length ≤ 7 := by
    rw [List.length_map, List.length_map]
    exact treemapBase_length_le pol h0
  have hlenq : ((((treemapBase pol).map (fun e => e.value)).map
      (fun v => v / T * 100)).length : ℚ) ≤ 7 := by exact_mod_cast hlen
  calc |((((treemapBase pol).map (fun e => e.value)).map (fun v => v / T * 100)).map
        (fun x => round_to_precision x 1)).sum - 100|
      ≤ (((treemapBase pol).map (fun e => e.value)).map (fun v => v / T * 100)).length *
        (1 / 20) := herr
    _ ≤ 7 * (1 / 20) := by nlinarith
    _ = 7 / 20 := by norm_num

lemma fiscalTreemap_names (pol : Lever → ℤ) :
    (fiscalTreemap pol).map (fun e => e.name) =
      ((activeLevers pol).filter (fun k => 0 < leverCost k (pol k))).map
        (fun k => (POLICY_COSTS k).label) := by
  unfold fiscalTreemap
  split
  · rw [List.map_map]
    unfold treemapBase
    rw [List.map_map]
    rfl
  · unfold treemapBase
    rw [List.map_map]
    rfl

/-- The percentage-skew input for the C7 counterexample:
ev=68, renewables=98, carbon tax=0, reforestation=17, transport=20,
industry=56, buildings=60, waste=86. -/
def inputTreemapSkew : Lever → RawInput
  | .evAdoption => .num 68
  | .renewableEnergy => .num 98
  | .carbonTax => .num 0
  | .reforestation => .num 17
  | .publicTransport => .num 20
  | .industrialControls => .num 56
  | .greenBuildings => .num 60
  | .wasteManagement => .num 86

/-- `reforestation=40`, all other levers 0 (used as a C7 witness input). -/
def inputReforestation40 : Lever → RawInput :=
  fun k => if k = Lever.reforestation then RawInput.num 40 else RawInput.num 0

/-- C7 counterexample: at the skew input the treemap is non-empty and its
percentages sum to 99.7, which misses 100 by 0.3 > 0.2. -/
theorem C7_treemap_counterexample :
    (calculate_impacts inputTreemapSkew).fiscal_treemap ≠ [] ∧
    ((calculate_impacts inputTreemapSkew).fiscal_treemap.map (fun e => e.percentage)).sum =
      99.7 ∧
    ¬ |((calculate_impacts inputTreemapSkew).fiscal_treemap.map
        (fun e => e.percentage)).sum - 100| ≤ 1 / 5 := by
  with_unfolding_all decide

/-- C7 (amended): the treemap contains an entry exactly for each active
lever with strictly positive cost (in loop order, carrying the lever's
label), and whenever the treemap is non-empty its percentages sum to 100
within ±0.35 (at most 7 entries, each rounded to one decimal). -/
theorem C7_treemap_percentages (policy_inputs : Lever → RawInput) :
    ((calculate_impacts policy_inputs).fiscal_treemap.map (fun e => e.name) =
      ((activeLevers (sanitizePolicies policy_inputs)).filter
        (fun k => 0 < leverCost k (sanitizePolicies policy_inputs k))).map
        (fun k => (POLICY_COSTS k).label)) ∧
    ((calculate_impacts policy_inputs).fiscal_treemap ≠ [] →
      |((calculate_impacts policy_inputs).fiscal_treemap.map
          (fun e => e.percentage)).sum - 100| ≤ 7 / 20) := by
  constructor
  · exact fiscalTreemap_names (sanitizePolicies policy_inputs)
  · intro hne
    exact fiscalTreemap_sum_le (sanitizePolicies policy_inputs)
      (fun k => sanitize_nonneg _) hne

/-- Witness for C7 at a one-lever input with a non-empty treemap. -/
theorem C7_treemap_percentages_witness :
    ((calculate_impacts inputReforestation40).fiscal_treemap.map (fun e => e.name) =
      ((activeLevers (sanitizePolicies inputReforestation40)).filter
        (fun k => 0 < leverCost k (sanitizePolicies inputReforestation40 k))).map
        (fun k => (POLICY_COSTS k).label)) ∧
    |((calculate_impacts inputReforestation40).fiscal_treemap.map
        (fun e => e.percentage)).sum - 100| ≤ 7 / 20 :=
  ⟨(C7_treemap_percentages inputReforestation40).1,
   (C7_treemap_percentages inputReforestation40).2 (by with_unfolding_all decide)⟩
